import Mathlib

/-!
Verification of the wings daemon core: the resource-usage calculator
(src/server/resources.go) and the websocket authentication / inbound
dispatch logic (src/websocket.go), shallowly embedded in Lean.

Conventions of the embedding:
* `uint64` counters become `Nat`; subtractions in the Go code are always
  guarded by a strict comparison, so `Nat` subtraction agrees with the
  machine result (no wrap-around is reachable).
* `float64` arithmetic in `CalculateAbsoluteCpu` is modelled exactly over
  `ℚ`; `math.Round` (round half away from zero) becomes `goRound`.
* `time.Now().Unix()` is passed in as an explicit `now : Int` parameter.
* Go `error` results become `Option String` (`none` = nil error) or
  `Except String α`; the error strings are the literal strings of the
  source.
* Calls into the external control surface (`Environment`) are recorded as
  an explicit effect trace, and the collaborator's responses are supplied
  by an `Environment` record of oracles.
-/

namespace Wings

/-! ## src/server/resources.go -/

/-- Network counters of `ResourceUsage` (struct `Network` in resources.go). -/
structure Network where
  rxBytes : Nat
  txBytes : Nat
deriving DecidableEq

/-- The `ResourceUsage` struct (resources.go lines 12-35); the `sync.RWMutex`
is omitted, state is passed explicitly. -/
structure ResourceUsage where
  memory : Nat
  memoryLimit : Nat
  cpuAbsolute : ℚ
  disk : Int
  network : Network
deriving DecidableEq

/-- `func (ru *ResourceUsage) Empty()` (resources.go lines 39-47): zeroes
memory, CPU and both network counters, touching nothing else. -/
def ResourceUsage.Empty (ru : ResourceUsage) : ResourceUsage :=
  { ru with
    memory := 0
    cpuAbsolute := 0
    network := { txBytes := 0, rxBytes := 0 } }

/-- The parts of Docker's `types.MemoryStats` used by the code: the raw
usage counter and the `Stats` map. A Go map read of an absent key yields
the zero value, hence the `Option Nat`-valued map with `getD 0` at the
one unchecked access site. -/
structure MemoryStats where
  usage : Nat
  stats : String → Option Nat

/-- `func (ru *ResourceUsage) CalculateDockerMemory` (resources.go lines
58-68): prefer `usage - stats["total_inactive_file"]` when the key exists
and the value is below usage, else `usage - stats["inactive_file"]`
(zero-defaulted read) when below usage, else the raw usage. -/
def CalculateDockerMemory (s : MemoryStats) : Nat :=
  match s.stats "total_inactive_file" with
  | some v =>
    if v < s.usage then s.usage - v
    else if (s.stats "inactive_file").getD 0 < s.usage then
      s.usage - (s.stats "inactive_file").getD 0
    else s.usage
  | none =>
    if (s.stats "inactive_file").getD 0 < s.usage then
      s.usage - (s.stats "inactive_file").getD 0
    else s.usage

/-- The parts of Docker's `types.CPUUsage` used by the code. -/
structure CPUUsage where
  totalUsage : Nat
  percpuUsage : List Nat
deriving DecidableEq

/-- The parts of Docker's `types.CPUStats` used by the code. -/
structure CPUStats where
  cpuUsage : CPUUsage
  systemUsage : Nat
  onlineCPUs : Nat
deriving DecidableEq

/-- Go's `math.Round`: round half away from zero, as an integer result. -/
def goRound (x : ℚ) : ℤ :=
  if 0 ≤ x then ⌊x + 1 / 2⌋ else -⌊-x + 1 / 2⌋

/-- `func (ru *ResourceUsage) CalculateAbsoluteCpu` (resources.go lines
74-93), the float64 arithmetic modelled exactly over `ℚ`. -/
def CalculateAbsoluteCpu (pStats stats : CPUStats) : ℚ :=
  let cpuDelta : ℚ := (stats.cpuUsage.totalUsage : ℚ) - (pStats.cpuUsage.totalUsage : ℚ)
  let systemDelta : ℚ := (stats.systemUsage : ℚ) - (pStats.systemUsage : ℚ)
  let cpus : ℚ :=
    if (stats.onlineCPUs : ℚ) = 0 then (stats.cpuUsage.percpuUsage.length : ℚ)
    else (stats.onlineCPUs : ℚ)
  let percent : ℚ :=
    if 0 < systemDelta ∧ 0 < cpuDelta then cpuDelta / systemDelta * cpus * 100 else 0
  (goRound (percent * 1000) : ℚ) / 1000

/-! ## src/websocket.go -/

/-- Inbound event-name constants (websocket.go lines 19-23). -/
def SetStateEvent : String := "set state"

/-- The send-logs inbound event name. -/
def SendServerLogsEvent : String := "send logs"

/-- The send-command inbound event name. -/
def SendCommandEvent : String := "send command"

/-- Permission-string constants (websocket.go lines 57-61). -/
def PermissionConnect : String := "connect"

/-- The send-command permission string. -/
def PermissionSendCommand : String := "send-command"

/-- The send-power permission string. -/
def PermissionSendPower : String := "send-power"

/-- Modelled from the spec: the outbound console-output event name,
`server.ConsoleOutputEvent`, is declared in the server package outside the
provided sources; only its existence matters here, no claim depends on its
value. -/
def ConsoleOutputEvent : String := "console output"

/-- `WebsocketTokenPayload` (websocket.go lines 50-55) merged with the
embedded `jwt.Payload` time claims it reads: not-before and expiration as
Unix timestamps. -/
structure WebsocketTokenPayload where
  notBefore : Int
  expirationTime : Int
  userID : String
  serverUUID : String
  permissions : List String
deriving DecidableEq

/-- `func (wtp *WebsocketTokenPayload) HasPermission` (websocket.go lines
64-72): exact string membership in the permission list. -/
def WebsocketTokenPayload.HasPermission (wtp : WebsocketTokenPayload)
    (permission : String) : Bool :=
  wtp.permissions.contains permission

/-- `func ParseJWT` (websocket.go lines 81-110). The HMAC signature check
`jwt.Verify` is external (shared secret from configuration); its outcome is
passed in as `verified`: an error for a bad signature, or the decoded
payload. Both `time.Now()` reads are the single parameter `now`. -/
def ParseJWT (now : Int) (verified : Except String WebsocketTokenPayload) :
    Except String WebsocketTokenPayload :=
  match verified with
  | Except.error e => Except.error e
  | Except.ok payload =>
    if now - payload.notBefore ≤ -15 then Except.error "jwt violates nbf"
    else if now - payload.expirationTime > 15 then Except.error "jwt violates exp"
    else if ¬ payload.HasPermission PermissionConnect then
      Except.error "not authorized to connect to this socket"
    else Except.ok payload

/-- The `WebsocketHandler` state read by `TokenValid` and `HandleInbound`:
the bound server's UUID and the (possibly nil) parsed JWT. The socket,
mutex and environment handle are external. -/
structure WebsocketHandler where
  serverUuid : String
  jwt : Option WebsocketTokenPayload

/-- `func (wsh *WebsocketHandler) TokenValid` (websocket.go lines 113-131).
The expiration failure really carries the string "jwt violates nbf" in the
source; kept verbatim. Note: no not-before check is performed here. -/
def TokenValid (now : Int) (wsh : WebsocketHandler) : Option String :=
  match wsh.jwt with
  | none => some "no jwt present"
  | some jwt =>
    if now - jwt.expirationTime > 15 then some "jwt violates nbf"
    else if ¬ jwt.HasPermission PermissionConnect then
      some "jwt does not have connect permission"
    else if wsh.serverUuid ≠ jwt.serverUUID then some "jwt server uuid mismatch"
    else none

/-- The signals of the `os` package that can reach `Environment.Terminate`;
only `os.Kill` is used by this code. -/
inductive Signal
  | osKill
  | osInterrupt
deriving DecidableEq

/-- A wire message (`WebsocketMessage`, websocket.go lines 25-41). -/
structure WebsocketMessage where
  event : String
  args : List String
  inbound : Bool
deriving DecidableEq

/-- One call made on an external collaborator while handling a message:
the control surface operations plus the socket send. -/
inductive Effect
  | start
  | stop
  | terminate (sig : Signal)
  | isRunning
  | readlog (maxBytes : Nat)
  | sendCommand (line : String)
  | sendJson (m : WebsocketMessage)
deriving DecidableEq

/-- The external control surface's behaviour during one `HandleInbound`
call: the error (or success) each operation would return if invoked. -/
structure Environment where
  startErr : Option String
  stopErr : Option String
  terminateErr : Signal → Option String
  running : Bool
  readlogResult : Except String (List String)
  sendCommandErr : String → Option String

/-- `func (wsh *WebsocketHandler) HandleInbound` (websocket.go lines
231-299), returning the Go error result paired with the trace of external
calls in order. The `wsh.jwt = none` fallthrough after a passing
`TokenValid` is unreachable (`TokenValid` fails on a nil JWT). -/
def HandleInbound (now : Int) (env : Environment) (wsh : WebsocketHandler)
    (m : WebsocketMessage) : Option String × List Effect :=
  if ¬ m.inbound then
    (some "cannot handle websocket message, not an inbound connection", [])
  else if (TokenValid now wsh).isSome then
    (none, [])
  else
    match wsh.jwt with
    | none => (none, [])
    | some jwt =>
      if m.event = SetStateEvent then
        if ¬ jwt.HasPermission PermissionSendPower then (none, [])
        else
          let action := String.join m.args
          if action = "start" then (env.startErr, [Effect.start])
          else if action = "stop" then (env.stopErr, [Effect.stop])
          else if action = "restart" then (none, [])
          else if action = "kill" then
            (env.terminateErr Signal.osKill, [Effect.terminate Signal.osKill])
          else (none, [])
      else if m.event = SendServerLogsEvent then
        if ¬ env.running then (none, [Effect.isRunning])
        else
          match env.readlogResult with
          | Except.error e => (some e, [Effect.isRunning, Effect.readlog (1024 * 16)])
          | Except.ok logs =>
            (none, [Effect.isRunning, Effect.readlog (1024 * 16)] ++
              logs.map fun line =>
                Effect.sendJson { event := ConsoleOutputEvent, args := [line], inbound := false })
      else if m.event = SendCommandEvent then
        if ¬ jwt.HasPermission PermissionSendCommand then (none, [])
        else (env.sendCommandErr (String.join m.args),
          [Effect.sendCommand (String.join m.args)])
      else (none, [])

/-! ## Concrete inputs used by witnesses and counterexamples -/

/-- A fully specified external control surface used to instantiate the
dispatch theorems on concrete inputs. -/
def witnessEnv : Environment :=
  { startErr := some "start failed"
    stopErr := none
    terminateErr := fun _ => some "terminate failed"
    running := true
    readlogResult := Except.ok ["line one"]
    sendCommandErr := fun _ => some "command failed" }

/-- A memory-stats sample whose map holds only `total_inactive_file`. -/
def memStatsW : MemoryStats :=
  { usage := 100
    stats := fun k => if k = "total_inactive_file" then some 30 else none }

/-- A previous CPU sample. -/
def cpuPrevW : CPUStats :=
  { cpuUsage := { totalUsage := 500, percpuUsage := [250, 250] }
    systemUsage := 1000
    onlineCPUs := 2 }

/-- A current CPU sample whose total usage counter went backwards. -/
def cpuBackW : CPUStats :=
  { cpuUsage := { totalUsage := 400, percpuUsage := [200, 200] }
    systemUsage := 2000
    onlineCPUs := 2 }

/-- A current CPU sample with a small positive usage delta. -/
def cpuLoW : CPUStats :=
  { cpuUsage := { totalUsage := 600, percpuUsage := [300, 300] }
    systemUsage := 2000
    onlineCPUs := 2 }

/-- A current CPU sample like `cpuLoW` but with a larger usage delta. -/
def cpuHiW : CPUStats :=
  { cpuUsage := { totalUsage := 900, percpuUsage := [300, 300] }
    systemUsage := 2000
    onlineCPUs := 2 }

/-- A prior resource-usage state with every field nonzero. -/
def resourceW : ResourceUsage :=
  { memory := 5
    memoryLimit := 7
    cpuAbsolute := 2
    disk := 9
    network := { rxBytes := 3, txBytes := 4 } }

/-- A token whose not-before time sits exactly at the 15-second boundary
beyond a clock reading of 0 and is otherwise fully valid. -/
def nbfBoundaryToken : WebsocketTokenPayload :=
  { notBefore := 15
    expirationTime := 1000
    userID := "u1"
    serverUUID := "s1"
    permissions := ["connect"] }

/-- A token sitting exactly on both accepted boundaries for a clock
reading of 0: expiration 15 seconds in the past, not-before 14 seconds in
the future. -/
def acceptBoundaryToken : WebsocketTokenPayload :=
  { notBefore := 14
    expirationTime := -15
    userID := "u1"
    serverUUID := "s1"
    permissions := ["connect"] }

/-- An unexpired, fully permissioned token bound to server "s1". -/
def tokenW : WebsocketTokenPayload :=
  { notBefore := 0
    expirationTime := 100
    userID := "u1"
    serverUUID := "s1"
    permissions := ["connect"] }

/-- A handler bound to server "s2" holding `tokenW` (a UUID mismatch). -/
def handlerMismatchW : WebsocketHandler :=
  { serverUuid := "s2", jwt := some tokenW }

/-- A token with the connect and send-power permissions for server "s1". -/
def tokenPowerW : WebsocketTokenPayload :=
  { notBefore := 0
    expirationTime := 100
    userID := "u1"
    serverUUID := "s1"
    permissions := ["connect", "send-power"] }

/-- A handler bound to server "s1" holding `tokenPowerW`. -/
def handlerPowerW : WebsocketHandler :=
  { serverUuid := "s1", jwt := some tokenPowerW }

/-- A handler bound to server "s1" holding `tokenW` (connect only). -/
def handlerConnectW : WebsocketHandler :=
  { serverUuid := "s1", jwt := some tokenW }

/-- An inbound set-state frame selecting the kill action, with the action
string split across two arguments to exercise the separator-free join. -/
def killMessageW : WebsocketMessage :=
  { event := "set state", args := ["ki", "ll"], inbound := true }

/-- An inbound send-command frame. -/
def commandMessageW : WebsocketMessage :=
  { event := "send command", args := ["say hi"], inbound := true }

/-! ## Helper lemmas -/

/-- Rounding a nonnegative rational half away from zero stays nonnegative. -/
theorem goRound_nonneg {x : ℚ} (hx : 0 ≤ x) : 0 ≤ goRound x := by
  unfold goRound
  rw [if_pos hx]
  exact Int.floor_nonneg.mpr (by linarith)

/-- Half-away-from-zero rounding is monotone on nonnegative rationals. -/
theorem goRound_mono_of_nonneg {x y : ℚ} (hx : 0 ≤ x) (hxy : x ≤ y) :
    goRound x ≤ goRound y := by
  unfold goRound
  rw [if_pos hx, if_pos (hx.trans hxy)]
  exact Int.floor_mono (by linarith)

/-! ## Claims about src/server/resources.go -/

/-- C4: `CalculateDockerMemory` returns `usage - stats["total_inactive_file"]`
when that key is present with a value strictly below usage; otherwise
`usage - stats["inactive_file"]` (zero-defaulted) when that value is
strictly below usage; otherwise the raw usage; and the result never
exceeds the raw usage (no underflow). -/
theorem calculateDockerMemory_spec (s : MemoryStats) :
    (∀ v, s.stats "total_inactive_file" = some v → v < s.usage →
      CalculateDockerMemory s = s.usage - v) ∧
    ((∀ v, s.stats "total_inactive_file" = some v → s.usage ≤ v) →
      (((s.stats "inactive_file").getD 0 < s.usage →
        CalculateDockerMemory s = s.usage - (s.stats "inactive_file").getD 0) ∧
      (s.usage ≤ (s.stats "inactive_file").getD 0 →
        CalculateDockerMemory s = s.usage))) ∧
    CalculateDockerMemory s ≤ s.usage := by
  refine ⟨?_, ?_, ?_⟩
  · intro v hv hlt
    simp [CalculateDockerMemory, hv, hlt]
  · intro hge
    constructor
    · intro hlt
      cases hv : s.stats "total_inactive_file" with
      | none => simp [CalculateDockerMemory, hv, hlt]
      | some v =>
        have hvge := hge v hv
        simp [CalculateDockerMemory, hv, hlt, Nat.not_lt.mpr hvge]
    · intro hge2
      cases hv : s.stats "total_inactive_file" with
      | none => simp [CalculateDockerMemory, hv, Nat.not_lt.mpr hge2]
      | some v =>
        simp [CalculateDockerMemory, hv, Nat.not_lt.mpr (hge v hv), Nat.not_lt.mpr hge2]
  · unfold CalculateDockerMemory
    cases s.stats "total_inactive_file" <;> dsimp only <;> split_ifs <;> omega

/-- C4 witness: on a concrete sample with `total_inactive_file = 30` below a
usage of 100, the adjusted memory is 70. -/
theorem calculateDockerMemory_spec_witness : CalculateDockerMemory memStatsW = 70 := by
  have h := (calculateDockerMemory_spec memStatsW).1 30 rfl (by norm_num [memStatsW])
  simpa using h

/-- C5: when the CPU usage delta or the system usage delta is nonpositive,
`CalculateAbsoluteCpu` returns exactly 0. -/
theorem calculateAbsoluteCpu_nonpos_delta (pStats stats : CPUStats)
    (h : stats.cpuUsage.totalUsage ≤ pStats.cpuUsage.totalUsage ∨
      stats.systemUsage ≤ pStats.systemUsage) :
    CalculateAbsoluteCpu pStats stats = 0 := by
  simp only [CalculateAbsoluteCpu]
  have hguard : ¬(0 < (stats.systemUsage : ℚ) - (pStats.systemUsage : ℚ) ∧
      0 < (stats.cpuUsage.totalUsage : ℚ) - (pStats.cpuUsage.totalUsage : ℚ)) := by
    rcases h with h | h
    · rintro ⟨-, h2⟩
      have hc : (stats.cpuUsage.totalUsage : ℚ) ≤ (pStats.cpuUsage.totalUsage : ℚ) :=
        Nat.cast_le.mpr h
      linarith
    · rintro ⟨h1, -⟩
      have hc : (stats.systemUsage : ℚ) ≤ (pStats.systemUsage : ℚ) := Nat.cast_le.mpr h
      linarith
  rw [if_neg hguard]
  norm_num [goRound]

/-- C5 witness: on a concrete pair of samples whose usage counter went
backwards, the computed percentage is 0. -/
theorem calculateAbsoluteCpu_nonpos_delta_witness :
    CalculateAbsoluteCpu cpuPrevW cpuBackW = 0 :=
  calculateAbsoluteCpu_nonpos_delta cpuPrevW cpuBackW (Or.inl (by norm_num [cpuPrevW, cpuBackW]))

/-- C6: `Empty` zeroes the memory, CPU and both network fields and leaves
the disk field at its prior value, for every prior state. -/
theorem empty_zeroes_usage_fields (ru : ResourceUsage) :
    ru.Empty.memory = 0 ∧ ru.Empty.cpuAbsolute = 0 ∧
    ru.Empty.network.rxBytes = 0 ∧ ru.Empty.network.txBytes = 0 ∧
    ru.Empty.disk = ru.disk := by
  simp [ResourceUsage.Empty]

/-- C6 witness: instantiation on a state with every field nonzero. -/
theorem empty_zeroes_usage_fields_witness :
    resourceW.Empty.memory = 0 ∧ resourceW.Empty.cpuAbsolute = 0 ∧
    resourceW.Empty.network.rxBytes = 0 ∧ resourceW.Empty.network.txBytes = 0 ∧
    resourceW.Empty.disk = resourceW.disk :=
  empty_zeroes_usage_fields resourceW

/-- C10: `Empty` leaves the memory-limit field unchanged, in addition to
the disk field, for every prior state. -/
theorem empty_preserves_memoryLimit (ru : ResourceUsage) :
    ru.Empty.memoryLimit = ru.memoryLimit ∧ ru.Empty.disk = ru.disk := by
  simp [ResourceUsage.Empty]

/-- C10 witness: instantiation on a state with every field nonzero. -/
theorem empty_preserves_memoryLimit_witness :
    resourceW.Empty.memoryLimit = resourceW.memoryLimit ∧
    resourceW.Empty.disk = resourceW.disk :=
  empty_preserves_memoryLimit resourceW

/-- C8: for a fixed previous sample and fixed current system usage, online
CPU count and per-core list, with a strictly positive system delta, the
rounded result of `CalculateAbsoluteCpu` never decreases as the current
total usage counter grows. -/
theorem calculateAbsoluteCpu_mono (pStats s1 s2 : CPUStats)
    (hsys : s1.systemUsage = s2.systemUsage)
    (hcpus : s1.onlineCPUs = s2.onlineCPUs)
    (hper : s1.cpuUsage.percpuUsage = s2.cpuUsage.percpuUsage)
    (hpos : pStats.systemUsage < s1.systemUsage)
    (hle : s1.cpuUsage.totalUsage ≤ s2.cpuUsage.totalUsage) :
    CalculateAbsoluteCpu pStats s1 ≤ CalculateAbsoluteCpu pStats s2 := by
  simp only [CalculateAbsoluteCpu]
  rw [hsys, hcpus, hper]
  set sysD : ℚ := (s2.systemUsage : ℚ) - (pStats.systemUsage : ℚ) with hsysD
  set cpus : ℚ :=
    if ((s2.onlineCPUs : ℚ) = 0) then (s2.cpuUsage.percpuUsage.length : ℚ)
    else (s2.onlineCPUs : ℚ) with hcpusDef
  set c1 : ℚ := (s1.cpuUsage.totalUsage : ℚ) - (pStats.cpuUsage.totalUsage : ℚ) with hc1
  set c2 : ℚ := (s2.cpuUsage.totalUsage : ℚ) - (pStats.cpuUsage.totalUsage : ℚ) with hc2
  have hsysDpos : 0 < sysD := by
    rw [hsysD]
    have : (pStats.systemUsage : ℚ) < (s2.systemUsage : ℚ) :=
      Nat.cast_lt.mpr (hsys ▸ hpos)
    linarith
  have hcpusNN : 0 ≤ cpus := by
    rw [hcpusDef]
    split_ifs <;> positivity
  have hc12 : c1 ≤ c2 := by
    rw [hc1, hc2]
    have : (s1.cpuUsage.totalUsage : ℚ) ≤ (s2.cpuUsage.totalUsage : ℚ) := Nat.cast_le.mpr hle
    linarith
  have hPle : (if 0 < sysD ∧ 0 < c1 then c1 / sysD * cpus * 100 else 0)
      ≤ (if 0 < sysD ∧ 0 < c2 then c2 / sysD * cpus * 100 else 0) := by
    split_ifs with h1 h2 h2
    · have hdiv : c1 / sysD ≤ c2 / sysD :=
        (div_le_div_iff_of_pos_right hsysDpos).mpr hc12
      exact mul_le_mul_of_nonneg_right
        (mul_le_mul_of_nonneg_right hdiv hcpusNN) (by norm_num)
    · exact absurd ⟨h1.1, lt_of_lt_of_le h1.2 hc12⟩ h2
    · have : 0 ≤ c2 / sysD := le_of_lt (div_pos h2.2 h2.1)
      have : 0 ≤ c2 / sysD * cpus := mul_nonneg this hcpusNN
      nlinarith
    · exact le_refl 0
  have hP1nn : 0 ≤ (if 0 < sysD ∧ 0 < c1 then c1 / sysD * cpus * 100 else 0) := by
    split_ifs with h1
    · have : 0 ≤ c1 / sysD := le_of_lt (div_pos h1.2 h1.1)
      have : 0 ≤ c1 / sysD * cpus := mul_nonneg this hcpusNN
      nlinarith
    · exact le_refl 0
  have hround := goRound_mono_of_nonneg
    (mul_nonneg hP1nn (by norm_num : (0:ℚ) ≤ 1000))
    (mul_le_mul_of_nonneg_right hPle (by norm_num : (0:ℚ) ≤ 1000))
  have hcast : ((goRound ((if 0 < sysD ∧ 0 < c1 then c1 / sysD * cpus * 100 else 0) * 1000) : ℤ) : ℚ)
      ≤ ((goRound ((if 0 < sysD ∧ 0 < c2 then c2 / sysD * cpus * 100 else 0) * 1000) : ℤ) : ℚ) :=
    Int.cast_le.mpr hround
  exact (div_le_div_iff_of_pos_right (by norm_num : (0:ℚ) < 1000)).mpr hcast

/-- C8 witness: instantiation on two concrete current samples with usage
deltas 100 and 400 over the same positive system delta. -/
theorem calculateAbsoluteCpu_mono_witness :
    CalculateAbsoluteCpu cpuPrevW cpuLoW ≤ CalculateAbsoluteCpu cpuPrevW cpuHiW :=
  calculateAbsoluteCpu_mono cpuPrevW cpuLoW cpuHiW rfl rfl rfl
    (by norm_num [cpuPrevW, cpuLoW]) (by norm_num [cpuLoW, cpuHiW])

/-! ## Claims about src/websocket.go -/

/-- C1 counterexample: a signature-verified token whose not-before lies
exactly 15 seconds in the future of the clock (`now - notBefore = -15`),
otherwise fully valid, is rejected by `ParseJWT` — the source rejects on
`now - notBefore <= -15`, not only on a strict inequality. -/
theorem parseJWT_nbf_boundary_counterexample :
    (0 : Int) - nbfBoundaryToken.notBefore = -15 ∧
    nbfBoundaryToken.HasPermission PermissionConnect = true ∧
    (0 : Int) - nbfBoundaryToken.expirationTime ≤ 15 ∧
    ParseJWT 0 (Except.ok nbfBoundaryToken) = Except.error "jwt violates nbf" := by
  refine ⟨by norm_num [nbfBoundaryToken], rfl, by norm_num [nbfBoundaryToken], rfl⟩

/-- C1 (amended): `ParseJWT` accepts a signature-verified token exactly
when `now - notBefore > -15`, `now - expirationTime ≤ 15` and the connect
permission is present; so expiration exactly 15 seconds in the past is
accepted and 16 seconds rejected, while not-before exactly 14 seconds in
the future is accepted and 15 seconds in the future rejected. -/
theorem parseJWT_ok_iff (now : Int) (p : WebsocketTokenPayload) :
    ParseJWT now (Except.ok p) = Except.ok p ↔
      -15 < now - p.notBefore ∧ now - p.expirationTime ≤ 15 ∧
        p.HasPermission PermissionConnect = true := by
  simp only [ParseJWT]
  by_cases h1 : now - p.notBefore ≤ -15
  · rw [if_pos h1]
    exact iff_of_false (by simp) (by rintro ⟨ha, -, -⟩; omega)
  · rw [if_neg h1]
    by_cases h2 : now - p.expirationTime > 15
    · rw [if_pos h2]
      exact iff_of_false (by simp) (by rintro ⟨-, hb, -⟩; omega)
    · rw [if_neg h2]
      by_cases h3 : p.HasPermission PermissionConnect = true
      · rw [if_neg (not_not_intro h3)]
        exact iff_of_true rfl ⟨by omega, by omega, h3⟩
      · rw [if_pos h3]
        exact iff_of_false (by simp) (by rintro ⟨-, -, hc⟩; exact h3 hc)

/-- C1 witness: instantiation of the amended characterization on a token
sitting on both accepted boundaries (`now - exp = 15`, `now - nbf = -14`),
showing it is accepted. -/
theorem parseJWT_ok_iff_witness :
    ParseJWT 0 (Except.ok acceptBoundaryToken) = Except.ok acceptBoundaryToken :=
  (parseJWT_ok_iff 0 acceptBoundaryToken).mpr
    ⟨by norm_num [acceptBoundaryToken], by norm_num [acceptBoundaryToken], rfl⟩

/-- C2: for a handler holding a parsed token, `TokenValid` fails exactly
when the token is expired beyond the 15-second tolerance, or lacks the
connect permission, or targets a different server than the one the
connection is bound to; the not-before field does not occur in the
condition, so a token with a future not-before but otherwise valid
passes. -/
theorem tokenValid_error_iff (now : Int) (wsh : WebsocketHandler)
    (jwt : WebsocketTokenPayload) (hjwt : wsh.jwt = some jwt) :
    (TokenValid now wsh).isSome = true ↔
      15 < now - jwt.expirationTime ∨
      jwt.HasPermission PermissionConnect = false ∨
      wsh.serverUuid ≠ jwt.serverUUID := by
  simp only [TokenValid, hjwt]
  by_cases h1 : now - jwt.expirationTime > 15
  · rw [if_pos h1]
    exact iff_of_true rfl (Or.inl h1)
  · rw [if_neg h1]
    by_cases h2 : jwt.HasPermission PermissionConnect = true
    · rw [if_neg (not_not_intro h2)]
      by_cases h3 : wsh.serverUuid ≠ jwt.serverUUID
      · rw [if_pos h3]
        exact iff_of_true rfl (Or.inr (Or.inr h3))
      · rw [if_neg h3]
        refine iff_of_false (by simp) ?_
        rintro (h | h | h)
        · exact h1 h
        · rw [h2] at h; cases h
        · exact h3 h
    · rw [if_pos h2]
      have h2f : jwt.HasPermission PermissionConnect = false := by simpa using h2
      exact iff_of_true rfl (Or.inr (Or.inl h2f))

/-- C2 witness: instantiation on a handler bound to server "s2" holding an
unexpired fully permissioned token for server "s1"; the characterization
shows `TokenValid` fails on the UUID mismatch alone. -/
theorem tokenValid_error_iff_witness :
    (TokenValid 0 handlerMismatchW).isSome = true ↔
      15 < (0 : Int) - tokenW.expirationTime ∨
      tokenW.HasPermission PermissionConnect = false ∨
      handlerMismatchW.serverUuid ≠ tokenW.serverUUID :=
  tokenValid_error_iff 0 handlerMismatchW tokenW rfl

/-- C9: a message whose inbound flag is false makes `HandleInbound` return
an error at once, with no token check and no collaborator call, for every
handler, clock and environment. -/
theorem handleInbound_rejects_outbound (now : Int) (env : Environment)
    (wsh : WebsocketHandler) (m : WebsocketMessage) (h : m.inbound = false) :
    HandleInbound now env wsh m =
      (some "cannot handle websocket message, not an inbound connection", []) := by
  simp [HandleInbound, h]

/-- C9 witness: instantiation on a locally constructed set-state message;
the environment would fail the start call, but it is never reached. -/
theorem handleInbound_rejects_outbound_witness :
    HandleInbound 0 witnessEnv handlerPowerW
        { event := "set state", args := ["start"], inbound := false } =
      (some "cannot handle websocket message, not an inbound connection", []) :=
  handleInbound_rejects_outbound 0 witnessEnv handlerPowerW
    { event := "set state", args := ["start"], inbound := false } rfl

/-- C3: an inbound message is silently dropped — nil result, no
collaborator call — whenever `TokenValid` fails, or it is a set-state
frame and the token lacks the send-power permission, or it is a
send-command frame and the token lacks the send-command permission. -/
theorem handleInbound_unauthorized_silent (now : Int) (env : Environment)
    (wsh : WebsocketHandler) (m : WebsocketMessage) (hin : m.inbound = true)
    (h : (TokenValid now wsh).isSome = true ∨
      ∃ jwt, wsh.jwt = some jwt ∧
        ((m.event = SetStateEvent ∧ jwt.HasPermission PermissionSendPower = false) ∨
          (m.event = SendCommandEvent ∧ jwt.HasPermission PermissionSendCommand = false))) :
    HandleInbound now env wsh m = (none, []) := by
  unfold HandleInbound
  rw [if_neg (by simp [hin])]
  by_cases htv : (TokenValid now wsh).isSome = true
  · rw [if_pos htv]
  · rw [if_neg htv]
    rcases h with h | ⟨jwt, hjwt, hcase⟩
    · exact absurd h htv
    · rw [hjwt]
      rcases hcase with ⟨hev, hperm⟩ | ⟨hev, hperm⟩
      · simp [hev, hperm]
      · have h1 : SendCommandEvent ≠ SetStateEvent := by decide
        have h2 : SendCommandEvent ≠ SendServerLogsEvent := by decide
        simp [hev, h1, h2, hperm]

/-- C3 witness: a send-command frame from a token holding only the connect
permission yields a nil result and an empty call trace, although the
environment would report an error if the command were forwarded. -/
theorem handleInbound_unauthorized_silent_witness :
    HandleInbound 0 witnessEnv handlerConnectW commandMessageW = (none, []) :=
  handleInbound_unauthorized_silent 0 witnessEnv handlerConnectW commandMessageW rfl
    (Or.inr ⟨tokenW, rfl, Or.inr ⟨rfl, rfl⟩⟩)

/-- C7: for an inbound set-state frame that passes `TokenValid` from a
token holding send-power, the joined argument string selects the action:
"start" calls Start, "stop" calls Stop, "kill" calls Terminate with the
kill signal — each returning the collaborator's error as the result — and
"restart" or any unrecognized string is a no-op with a nil result. -/
theorem handleInbound_setstate_dispatch (now : Int) (env : Environment)
    (wsh : WebsocketHandler) (m : WebsocketMessage) (jwt : WebsocketTokenPayload)
    (hin : m.inbound = true) (hjwt : wsh.jwt = some jwt)
    (hvalid : TokenValid now wsh = none)
    (hperm : jwt.HasPermission PermissionSendPower = true)
    (hev : m.event = SetStateEvent) :
    HandleInbound now env wsh m =
      if String.join m.args = "start" then (env.startErr, [Effect.start])
      else if String.join m.args = "stop" then (env.stopErr, [Effect.stop])
      else if String.join m.args = "kill" then
        (env.terminateErr Signal.osKill, [Effect.terminate Signal.osKill])
      else ((none : Option String), ([] : List Effect)) := by
  unfold HandleInbound
  rw [if_neg (by simp [hin]), if_neg (by simp [hvalid])]
  rw [hjwt]
  simp only [hev, if_pos rfl, hperm, Bool.not_true, Bool.false_eq_true, not_false_eq_true,
    if_neg, if_false]
  split_ifs <;> simp_all

/-- C7 witness: a kill frame (action string split across two args) from a
send-power token calls Terminate with the kill signal exactly once and
returns the collaborator's error. -/
theorem handleInbound_setstate_dispatch_witness :
    HandleInbound 0 witnessEnv handlerPowerW killMessageW =
      (some "terminate failed", [Effect.terminate Signal.osKill]) := by
  have h := handleInbound_setstate_dispatch 0 witnessEnv handlerPowerW killMessageW
    tokenPowerW rfl rfl rfl rfl rfl
  rw [h]
  rfl

end Wings
